import Mathlib

/-!
Verification of the AnkiBlur repository against its natural-language
specification.

The repository has two source files:
* `patches/anki_webview_addon/ankiblur_background_theme/__init__.py` —
  the transparent-overlay addon (config migration, theme resolution,
  CSS/JS injection);
* `scripts/check_anki_updates.py` — the release-check automation script.

Both are shallowly embedded below.  Python dicts holding the addon
configuration are modelled as association lists of JSON-like values;
the Python strings produced by the f-string renderers are reproduced
verbatim (literal braces are written with hexadecimal escapes); machine
side effects (persisting the config, GitHub-Actions outputs, exit
codes) are made explicit in result records.
-/

/-! ## Generic string / character helpers -/

/-- Decidable substring test, modelling Python's `in` on strings:
`sub` occurs contiguously inside `s` (it is a prefix of some suffix). -/
def strContainsSub (s sub : String) : Bool :=
  s.data.tails.any (fun t => sub.data.isPrefixOf t)

/-- Number of (possibly overlapping) occurrences of `sub` in `s`,
counted at every starting position. -/
def countOccL (sub s : List Char) : Nat :=
  (s.tails.filter (fun t => decide (sub <+: t))).length

/-- String-level occurrence count. -/
def countSub (sub s : String) : Nat :=
  countOccL sub.data s.data

/-- Python slice `s[i:j]` for `i ≤ j` (indices clamp at the ends, as in
Python). -/
def pySlice (s : String) (i j : Nat) : String :=
  ⟨(s.data.drop i).take (j - i)⟩

/-- Value of a hexadecimal digit, accepting both cases, as `int(·, 16)`
does. -/
def hexDigitVal (c : Char) : Option Nat :=
  if '0' ≤ c ∧ c ≤ '9' then some (c.toNat - 48)
  else if 'a' ≤ c ∧ c ≤ 'f' then some (c.toNat - 87)
  else if 'A' ≤ c ∧ c ≤ 'F' then some (c.toNat - 55)
  else none

/-- Python `int(s, 16)` restricted to plain strings of hex digits (the
only shape the addon ever feeds it); any other character, or an empty
string, is a `ValueError`, modelled as `none`. -/
def pyIntBase16 (s : String) : Option Nat :=
  if s.data.isEmpty then none
  else s.data.foldl
    (fun acc c => do
      let a ← acc
      let d ← hexDigitVal c
      pure (a * 16 + d))
    (some 0)

/-- Python `str.lower()` (the script only ever lowercases ASCII values
of environment variables and release notes). -/
def pyLower (s : String) : String :=
  ⟨s.data.map Char.toLower⟩

/-- Number of occurrences of the character `c` in `s`, modelling
Python's `str.count` with a single-character argument. -/
def countChar (s : String) (c : Char) : Nat :=
  (s.data.filter (fun x => x == c)).length

/-- The decimal digit characters used when formatting numbers. -/
def digitChar10 (d : Nat) : Char :=
  match d with
  | 0 => '0' | 1 => '1' | 2 => '2' | 3 => '3' | 4 => '4'
  | 5 => '5' | 6 => '6' | 7 => '7' | 8 => '8' | _ => '9'

/-- Decimal digit list of a natural number, most significant first:
the decimal rendering Python's `str` applies to the non-negative
integers interpolated into the f-strings. -/
def natDecimal (n : Nat) : List Char :=
  Nat.toDigits 10 n

/-- Decimal string of a natural number, as Python `str` renders the
interpolated `r`, `g`, `b` values. -/
def natStr (n : Nat) : String :=
  ⟨natDecimal n⟩

/-- Python's rendering of `alpha/100` inside an f-string: `alpha/100`
is true float division and `str` prints the shortest round-tripping
decimal, which for the two-decimal-digit fractions produced here is the
exact decimal expansion of `alpha/100` with trailing fractional zeros
dropped (but at least one fractional digit), e.g. `30 ↦ "0.3"`,
`15 ↦ "0.15"`, `100 ↦ "1.0"`, `-5 ↦ "-0.05"`. -/
def pyDiv100Str (alpha : Int) : String :=
  let sign : String := if alpha < 0 then "-" else ""
  let a := alpha.natAbs
  let ip := a / 100
  let fr := a % 100
  let fracChars : List Char :=
    if fr = 0 then ['0']
    else if fr % 10 = 0 then [digitChar10 (fr / 10)]
    else if fr < 10 then ['0', digitChar10 fr]
    else [digitChar10 (fr / 10), digitChar10 (fr % 10)]
  sign ++ natStr ip ++ "." ++ ⟨fracChars⟩

/-! ## Addon configuration model

`mw.addonManager.getConfig` hands the addon a JSON object (a Python
dict) or `None`; the dict values the addon reads are strings, integers
and nested objects. -/

/-- JSON-like values stored in the addon configuration. -/
inductive JValue where
  | str (s : String)
  | num (n : Int)
  | obj (fields : List (String × JValue))

/-- A JSON object / Python dict, as an association list (Python dicts
have unique keys; lookup takes the first binding). -/
def Dict := List (String × JValue)

/-- The hardcoded default configuration built when `getConfig` returns
`None` (source lines 19–22). -/
def defaultConfig : Dict :=
  [("light_theme", .obj [("color", .str "#ffffff"), ("alpha", .num 15)]),
   ("dark_theme",  .obj [("color", .str "#000000"), ("alpha", .num 30)])]

/-- The configuration produced when migrating a legacy config whose
`color` is `C` and whose `alpha` is `A` (source lines 30–33). -/
def migratedConfig (C A : JValue) : Dict :=
  [("light_theme", .obj [("color", .str "#ffffff"), ("alpha", A)]),
   ("dark_theme",  .obj [("color", C), ("alpha", A)])]

/-- Result of `TransparentOverlay.migrate_config_if_needed`: the
in-memory config afterwards, the argument of the `writeConfig` call if
one happened, and whether the `showInfo` notice was displayed. -/
structure MigrateResult where
  config : Dict
  wrote : Option Dict
  notified : Bool

/-- `TransparentOverlay.migrate_config_if_needed` (source lines 16–39):
`None` becomes the default config with no write; a dict having both
top-level keys `color` and `alpha` is rebuilt into the two-theme shape,
written back and announced; anything else passes through untouched. -/
def migrate_config_if_needed (raw : Option Dict) : MigrateResult :=
  match raw with
  | none => ⟨defaultConfig, none, false⟩
  | some c =>
    if (List.lookup "color" c).isSome && (List.lookup "alpha" c).isSome then
      let old_color := (List.lookup "color" c).getD (.str "#000000")
      let old_alpha := (List.lookup "alpha" c).getD (.num 30)
      let nc : Dict :=
        [("light_theme", .obj [("color", .str "#ffffff"), ("alpha", old_alpha)]),
         ("dark_theme",  .obj [("color", old_color), ("alpha", old_alpha)])]
      ⟨nc, some nc, true⟩
    else ⟨c, none, false⟩

/-! ## Theme resolution -/

/-- `TransparentOverlay.get_current_theme_config` (source lines 55–66):
select `dark_theme`/`light_theme` by night mode, falling back to the
hardcoded per-mode default object when the key is absent. -/
def get_current_theme_config (config : Dict) (isDark : Bool) : JValue :=
  let themeKey := if isDark then "dark_theme" else "light_theme"
  let fallback : JValue :=
    .obj [("color", .str (if isDark then "#000000" else "#ffffff")),
          ("alpha", .num (if isDark then 30 else 15))]
  (List.lookup themeKey config).getD fallback

/-- The `color`/`alpha` extraction repeated in all three injectors
(source lines 74–76, 113–115, 138–140): `theme_config.get("color",
"#000000")` and `theme_config.get("alpha", 30)`.  A resolved theme that
is not an object, a non-string color or a non-integer alpha would crash
the Python (`AttributeError`/`TypeError`), modelled as `none`. -/
def resolveColorAlpha (config : Dict) (isDark : Bool) : Option (String × Int) :=
  match get_current_theme_config config isDark with
  | .obj fs =>
    match (List.lookup "color" fs).getD (.str "#000000"),
          (List.lookup "alpha" fs).getD (.num 30) with
    | .str c, .num a => some (c, a)
    | _, _ => none
  | _ => none

/-- The `r`, `g`, `b` parsing shared by the three injectors (source
lines 78–80, 117–119, 142–144): `int(color[1:3], 16)` etc.; a malformed
color raises in Python, modelled as `none`. -/
def parseColorHex (color : String) : Option (Nat × Nat × Nat) := do
  let r ← pyIntBase16 (pySlice color 1 3)
  let g ← pyIntBase16 (pySlice color 3 5)
  let b ← pyIntBase16 (pySlice color 5 7)
  pure (r, g, b)

/-- The spec's `toRGBA`: the `(r, g, b, a_fraction)` quadruple the
injectors compute, with the float division `alpha/100` modelled as an
exact rational. -/
def toRGBA (color : String) (alpha : Int) : Option (Nat × Nat × Nat × ℚ) :=
  (parseColorHex color).map (fun t => (t.1, t.2.1, t.2.2, (alpha : ℚ) / 100))

/-! ## Overlay renderer strings

The Python f-strings are reproduced verbatim; literal braces are
written with hexadecimal escapes, apostrophes inside string literals
likewise. -/

/-- `inject_overlay`'s `background_css` f-string (source lines
147–182), split at the `rgba` interpolation and at the boundaries of
the `html` rule so the rule can be named; the concatenations below
restore the literal text exactly.  First: the text before the `html`
rule. -/
def cssStylePrefix : String :=
  "\n        <style>\n        "

/-- The `html` rule of `background_css` up to the interpolated `rgba`
arguments. -/
def cssHtmlRuleStart : String :=
  "html \x7b\n            background-color: rgba("

/-- The `html` rule of `background_css` after the interpolated `rgba`
arguments, up to its closing brace. -/
def cssHtmlRuleEnd : String :=
  ") !important;\n        \x7d"

/-- The text of `background_css` after the `html` rule: the fixed
selector rules. -/
def cssAfterHtmlRule : String :=
  "\n\n        body \x7b\n            background-color: transparent !important;\n        \x7d\n\n        /* Main web view - force background on all potential containers */\n        #outer, #main, .main-webview \x7b\n            background-color: transparent !important;\n        \x7d\n\n        /* Make card backgrounds transparent to show through */\n        .card \x7b\n            background-color: transparent !important;\n        \x7d\n\n        /* Congratulations screen - target all possible selectors */\n        .congrats-container, .congrats, div[id*=\"congrat\"], div[class*=\"congrat\"] \x7b\n            background-color: transparent !important;\n        \x7d\n\n        /* Overview screen */\n        .overview, div[class*=\"overview\"] \x7b\n            background-color: transparent !important;\n        \x7d\n\n        /* Force all divs to be transparent if they have default white backgrounds */\n        div:not([style*=\"background\"]) \x7b\n            background-color: transparent !important;\n        \x7d\n        </style>\n        "

/-- The `background_css` f-string text before the interpolated `rgba`
arguments. -/
def cssBeforeRGBA : String :=
  cssStylePrefix ++ cssHtmlRuleStart

/-- The `background_css` f-string text after the interpolated `rgba`
arguments. -/
def cssAfterRGBA : String :=
  cssHtmlRuleEnd ++ cssAfterHtmlRule

/-- The rendered `background_css` block of `inject_overlay` for parsed
color bytes `r`,`g`,`b` and the already-formatted alpha fraction. -/
def background_css (r g b : Nat) (frac : String) : String :=
  cssBeforeRGBA ++ natStr r ++ ", " ++ natStr g ++ ", " ++ natStr b ++ ", " ++
    frac ++ cssAfterRGBA

/-- `TransparentOverlay.inject_overlay` (source lines 136–184): resolve
the current theme, parse its color, and append the style block to
`web_content.head`; returns the new head. -/
def inject_overlay (config : Dict) (isDark : Bool) (head : String) :
    Option String := do
  let ca ← resolveColorAlpha config isDark
  let t ← parseColorHex ca.1
  pure (head ++ background_css t.1 t.2.1 t.2.2 (pyDiv100Str ca.2))

/-- The contents of the template literal assigned to `style.textContent`
in both generated scripts (source lines 92–99 and 123–130 — the two
f-strings contain the identical literal), before the `rgba` arguments. -/
def styleInnerBefore : String :=
  "\n            html \x7b\n                background-color: rgba("

/-- The same template literal, after the `rgba` arguments. -/
def styleInnerAfter : String :=
  ") !important;\n            \x7d\n            body \x7b\n                background-color: transparent !important;\n            \x7d\n        "

/-- The rendered `style.textContent` template literal. -/
def styleInner (r g b : Nat) (frac : String) : String :=
  styleInnerBefore ++ natStr r ++ ", " ++ natStr g ++ ", " ++ natStr b ++ ", " ++
    frac ++ styleInnerAfter

/-- The `js_code` f-string of
`TransparentOverlay.inject_current_theme_style` (source lines 82–101). -/
def themeChangeJs (r g b : Nat) (frac : String) : String :=
  "\n        // Remove existing theme overlay styles\n        const existingStyle = document.getElementById(\x27transparent-overlay-theme-style\x27);\n        if (existingStyle) \x7b\n            existingStyle.remove();\n        \x7d\n\n        // Add new theme overlay style\n        const style = document.createElement(\x27style\x27);\n        style.id = \x27transparent-overlay-theme-style\x27;\n        style.textContent = `" ++
    styleInner r g b frac ++
    "`;\n        document.head.appendChild(style);\n        "

/-- The `js_code` f-string of
`TransparentOverlay.inject_finished_screen_style` (source lines
121–132). -/
def finishedScreenJs (r g b : Nat) (frac : String) : String :=
  "\n        const style = document.createElement(\x27style\x27);\n        style.textContent = `" ++
    styleInner r g b frac ++
    "`;\n        document.head.appendChild(style);\n        "

/-- `TransparentOverlay.inject_current_theme_style` (source lines
69–103): the script text evaluated against the main webview. -/
def inject_current_theme_style (config : Dict) (isDark : Bool) :
    Option String := do
  let ca ← resolveColorAlpha config isDark
  let t ← parseColorHex ca.1
  pure (themeChangeJs t.1 t.2.1 t.2.2 (pyDiv100Str ca.2))

/-- `TransparentOverlay.inject_finished_screen_style` (source lines
111–134): the script text evaluated against the main webview. -/
def inject_finished_screen_style (config : Dict) (isDark : Bool) :
    Option String := do
  let ca ← resolveColorAlpha config isDark
  let t ← parseColorHex ca.1
  pure (finishedScreenJs t.1 t.2.1 t.2.2 (pyDiv100Str ca.2))

/-! ## Document model for the generated scripts

The two scripts only create, remove and append `<style>` elements, so
a document is modelled by its list of style elements in document
order. -/

/-- A `<style>` element: its `id` attribute (if set) and its
`textContent`. -/
structure StyleElem where
  id : Option String
  text : String

/-- The fixed element identifier used by the theme-change script. -/
def overlayStyleId : String := "transparent-overlay-theme-style"

/-- `document.getElementById(...).remove()`: remove the first element
carrying the overlay style id, if any (ids are unique in a valid DOM,
so "first" is "the" element there). -/
def removeFirstById : List StyleElem → List StyleElem
  | [] => []
  | e :: rest =>
    if e.id = some overlayStyleId then rest else e :: removeFirstById rest

/-- Effect of executing the theme-change script (source lines 82–101)
on the document's style elements: remove any existing element with the
fixed id, then append a fresh one carrying that id and the rendered
template literal. -/
def themeChangeEffect (r g b : Nat) (frac : String)
    (head : List StyleElem) : List StyleElem :=
  removeFirstById head ++ [⟨some overlayStyleId, styleInner r g b frac⟩]

/-- Effect of executing the finished-screen script (source lines
121–132): append a fresh style element with no id; nothing is
removed. -/
def finishedScreenEffect (r g b : Nat) (frac : String)
    (head : List StyleElem) : List StyleElem :=
  head ++ [⟨none, styleInner r g b frac⟩]

/-- Number of style elements carrying the overlay style id. -/
def countOverlayId (head : List StyleElem) : Nat :=
  (head.filter (fun e => e.id == some overlayStyleId)).length

/-! ## Release-check script (`scripts/check_anki_updates.py`)

Timestamps are modelled in seconds (`timedelta(hours=2)` is 7200).
Reading a file can find it absent, fail with an I/O error, fail to
parse, or succeed; the script distinguishes these only through its
`try/except` blocks, which the embedding follows case by case. -/

/-- Outcome of reading one of the script's state files. -/
inductive FileRead (α : Type) where
  | absent
  | ioError
  | badParse
  | ok (a : α)

/-- The read did not produce a value: file absent, I/O error, or parse
error. -/
def isFailRead {α : Type} : FileRead α → Bool
  | .ok _ => false
  | _ => true

/-- Python exceptions relevant to `main`'s handlers. -/
inductive PyExc where
  | reqExc (msg : String)
  | otherExc (msg : String)

/-- A GitHub release object, with the fields `main` reads.  `name` and
`body` can be JSON `null` (`none` here); Python's `or` also treats the
empty string as falsy, which `is_significant_release` relies on. -/
structure GhRelease where
  tag_name : String
  name : Option String
  body : Option String
  prerelease : Bool
  html_url : String

/-- The version mapping: AnkiBlur version ↦ info dict (string
values). -/
def VersionMapping := List (String × List (String × String))

/-- `load_version_mapping` (source lines 46–55): an absent file, an
I/O error or a JSON parse error all yield the empty mapping. -/
def load_version_mapping (r : FileRead VersionMapping) : VersionMapping :=
  match r with
  | .ok m => m
  | _ => []

/-- `was_recently_checked` (source lines 63–75): false when the file is
absent, unreadable or unparsable; otherwise true iff the stored
timestamp is less than two hours (7200 s) before `now`. -/
def was_recently_checked (r : FileRead Int) (now : Int) : Bool :=
  match r with
  | .ok t => decide (now - t < 7200)
  | _ => false

/-- Python `str.lstrip("v")`: drop every leading `v`. -/
def lstripV (s : String) : String :=
  ⟨s.data.dropWhile (fun c => c == 'v')⟩

/-- `version_already_built` (source lines 82–90). -/
def version_already_built (anki_version : String) (m : VersionMapping) :
    Bool :=
  m.any (fun p =>
    lstripV ((List.lookup "anki_version" p.2).getD "") == lstripV anki_version)

/-- The keyword list of `is_significant_release` (source lines
107–110). -/
def significant_keywords : List String :=
  ["major", "breaking", "new feature", "ui change", "interface",
   "rework", "rewrite", "overhaul"]

/-- `is_significant_release` (source lines 92–118): skip prereleases
and tags with more than two dots; then scan the lowercased name+body
for keywords — and default to `True` anyway. -/
def is_significant_release (rel : GhRelease) : Bool :=
  let tag := rel.tag_name
  let name :=
    match rel.name with
    | none => tag
    | some s => if s = "" then tag else s
  let body :=
    match rel.body with
    | none => ""
    | some s => s
  if rel.prerelease then false
  else if countChar tag '.' > 2 then false
  else
    let text := pyLower (name ++ " " ++ body)
    if significant_keywords.any (fun k => strContainsSub text k) then true
    else true

/-- One run's external circumstances: environment, file reads, the
GitHub API response (or the exception it raised — any exception inside
the `try` body other than a `RequestException` lands in the generic
handler), and whether `mark_checked`'s file write raises an `IOError`
(carrying its message). -/
structure World where
  forceCheckEnv : Option String
  now : Int
  lastCheck : FileRead Int
  versionMapping : FileRead VersionMapping
  fetchLatest : Except PyExc GhRelease
  markCheckedExc : Option String

/-- Observable outcome of one run of `main` (source lines 141–193):
the `set_github_output` calls in order, the `print`ed log lines, the
process exit code (0 = normal return), whether the GitHub API was
queried, whether `.last-check` was successfully rewritten, and whether
the version-mapping file was written (`main` never calls
`save_version_mapping`, so this is false on every path). -/
structure RunResult where
  outputs : List (String × String)
  logs : List String
  exitCode : Nat
  apiCalled : Bool
  markedChecked : Bool
  mappingSaved : Bool

/-- The log line each `except` handler prints. -/
def excLog : PyExc → String
  | .reqExc m => "Error checking for updates: " ++ m
  | .otherExc m => "Unexpected error: " ++ m

/-- The script's `main` (source lines 141–193); named `mainRun` here
only because Lean reserves `main` for executables. -/
def mainRun (w : World) : RunResult :=
  let force_check := pyLower (w.forceCheckEnv.getD "false") == "true"
  if !force_check && was_recently_checked w.lastCheck w.now then
    ⟨[("new_release", "false"), ("needs_review", "false")],
     ["Checking for Anki updates...",
      "Recently checked for updates, skipping"],
     0, false, false, false⟩
  else
    match w.fetchLatest with
    | .error e =>
      ⟨[], ["Checking for Anki updates...", excLog e], 1, true, false, false⟩
    | .ok latest =>
      let v := latest.tag_name
      let mapping := load_version_mapping w.versionMapping
      if version_already_built v mapping then
        match w.markCheckedExc with
        | none =>
          ⟨[("new_release", "false"), ("needs_review", "false")],
           ["Checking for Anki updates...",
            "Latest Anki release: " ++ v,
            "Already built AnkiBlur for Anki " ++ v],
           0, true, true, false⟩
        | some m =>
          ⟨[("new_release", "false"), ("needs_review", "false")],
           ["Checking for Anki updates...",
            "Latest Anki release: " ++ v,
            "Already built AnkiBlur for Anki " ++ v,
            "Unexpected error: " ++ m],
           1, true, false, false⟩
      else
        let outs :=
          if is_significant_release latest then
            [("new_release", "true"), ("needs_review", "false"),
             ("anki_version", v), ("changes_url", latest.html_url)]
          else
            [("new_release", "false"), ("needs_review", "true"),
             ("anki_version", v), ("changes_url", latest.html_url)]
        let lg :=
          if is_significant_release latest then
            "Release appears significant, triggering automatic build"
          else
            "Release appears minor, creating issue for manual review"
        match w.markCheckedExc with
        | none =>
          ⟨outs,
           ["Checking for Anki updates...",
            "Latest Anki release: " ++ v,
            "New Anki release detected: " ++ v, lg],
           0, true, true, false⟩
        | some m =>
          ⟨outs,
           ["Checking for Anki updates...",
            "Latest Anki release: " ++ v,
            "New Anki release detected: " ++ v, lg,
            "Unexpected error: " ++ m],
           1, true, false, false⟩

/-- Number of times an output name was written. -/
def countKey (outs : List (String × String)) (k : String) : Nat :=
  (outs.filter (fun p => p.1 == k)).length

/-- The run printed an error line last: one of the two handler
messages. -/
def errorLogged (r : RunResult) : Prop :=
  ∃ m, r.logs.getLast? = some m ∧
    ("Error checking for updates: ".data <+: m.data ∨
     "Unexpected error: ".data <+: m.data)

/-! ## Concrete inputs used by witnesses and counterexamples -/

/-- A legacy-shaped config: `{"color": "#123456", "alpha": 40}`. -/
def legacyCfgEx : Dict :=
  [("color", JValue.str "#123456"), ("alpha", JValue.num 40)]

/-- A new-shape config carrying only the documented dark theme. -/
def darkCfgEx : Dict :=
  [("dark_theme",
    JValue.obj [("color", JValue.str "#000000"), ("alpha", JValue.num 30)])]

/-- A new-shape config used to exercise pass-through. -/
def newShapeCfgEx : Dict :=
  [("light_theme",
    JValue.obj [("color", JValue.str "#abcdef"), ("alpha", JValue.num 7)])]

/-- A run in which everything succeeds except the `mark_checked` write
of `.last-check`, which raises an `IOError`. -/
def markFailWorld : World :=
  { forceCheckEnv := some "true"
    now := 0
    lastCheck := .absent
    versionMapping := .absent
    fetchLatest := .ok ⟨"v25.02", some "Anki 25.02", some "notes", false,
      "https://github.com/ankitects/anki/releases/tag/25.02"⟩
    markCheckedExc := some "[Errno 28] No space left on device" }

/-- A run whose GitHub API request raises a `RequestException`. -/
def netFailWorld : World :=
  { forceCheckEnv := some "TRUE"
    now := 0
    lastCheck := .absent
    versionMapping := .ioError
    fetchLatest := .error (.reqExc "connection refused")
    markCheckedExc := none }

/-- A successful run that finds a new significant release. -/
def buildWorld : World :=
  { forceCheckEnv := none
    now := 100000
    lastCheck := .ok 50000
    versionMapping := .ok [("1.0.0", [("anki_version", "2.1.60")])]
    fetchLatest := .ok ⟨"v2.1.66", none, none, false,
      "https://github.com/ankitects/anki/releases/tag/2.1.66"⟩
    markCheckedExc := none }

/-- A run skipped because the previous check was recent. -/
def recentWorld : World :=
  { forceCheckEnv := some "false"
    now := 10000
    lastCheck := .ok 5000
    versionMapping := .ok []
    fetchLatest := .ok ⟨"v2.1.66", none, none, false, "https://example.org"⟩
    markCheckedExc := none }

/-! ## Helper lemmas: decimal renderings -/

/-- Every character `digitChar10` produces is a decimal digit. -/
theorem digitChar10_isDigit (d : Nat) : (digitChar10 d).isDigit = true := by
  unfold digitChar10
  split <;> decide

/-- `Nat.digitChar` of a value below ten is a decimal digit. -/
theorem digitChar_isDigit_of_lt (d : Nat) (h : d < 10) :
    (Nat.digitChar d).isDigit = true := by
  interval_cases d <;> decide

/-- Characters produced by `Nat.toDigitsCore` at base ten are digits or
come from the accumulator. -/
theorem toDigitsCore_mem (fuel : Nat) :
    ∀ n acc c, c ∈ Nat.toDigitsCore 10 fuel n acc →
      c.isDigit = true ∨ c ∈ acc := by
  induction fuel with
  | zero =>
    intro n acc c hc
    exact Or.inr hc
  | succ f ih =>
    intro n acc c hc
    unfold Nat.toDigitsCore at hc
    dsimp only at hc
    split at hc
    · rcases List.mem_cons.mp hc with h | h
      · exact Or.inl (h ▸ digitChar_isDigit_of_lt _ (Nat.mod_lt _ (by omega)))
      · exact Or.inr h
    · rcases ih (n / 10) _ c hc with h | h
      · exact Or.inl h
      · rcases List.mem_cons.mp h with h2 | h2
        · exact Or.inl
            (h2 ▸ digitChar_isDigit_of_lt _ (Nat.mod_lt _ (by omega)))
        · exact Or.inr h2

/-- Characters of `natDecimal` are decimal digits. -/
theorem natDecimal_digits (n : Nat) (c : Char) (hc : c ∈ natDecimal n) :
    c.isDigit = true := by
  rcases toDigitsCore_mem (n + 1) n [] c hc with h | h
  · exact h
  · cases h

/-- `Nat.toDigitsCore` preserves a nonempty accumulator. -/
theorem toDigitsCore_ne_nil (fuel : Nat) :
    ∀ n acc, acc ≠ [] → Nat.toDigitsCore 10 fuel n acc ≠ [] := by
  induction fuel with
  | zero => intro n acc h; exact h
  | succ f ih =>
    intro n acc h
    unfold Nat.toDigitsCore
    dsimp only
    split
    · simp
    · exact ih (n / 10) _ (by simp)

/-- `natDecimal` is nonempty. -/
theorem natDecimal_ne_nil (n : Nat) : natDecimal n ≠ [] := by
  unfold natDecimal Nat.toDigits Nat.toDigitsCore
  dsimp only
  split
  · simp
  · exact toDigitsCore_ne_nil _ _ _ (by simp)

/-- Characters of `pyDiv100Str` are digits, the decimal point or a
minus sign. -/
theorem pyDiv100Str_chars (a : Int) (c : Char)
    (hc : c ∈ (pyDiv100Str a).data) :
    c.isDigit = true ∨ c = '.' ∨ c = '-' := by
  unfold pyDiv100Str at hc
  simp only [String.data_append, List.mem_append] at hc
  rcases hc with ((hsign | hint) | hdot) | hfrac
  · split at hsign
    · right; right
      simpa using hsign
    · simp at hsign
  · exact Or.inl (natDecimal_digits _ c hint)
  · right; left
    simpa using hdot
  · split at hfrac
    · left
      simp at hfrac
      exact hfrac ▸ (by decide)
    · split at hfrac
      · left
        simp at hfrac
        exact hfrac ▸ digitChar10_isDigit _
      · split at hfrac
        · left
          simp at hfrac
          rcases hfrac with h | h
          · exact h ▸ (by decide)
          · exact h ▸ digitChar10_isDigit _
        · left
          simp at hfrac
          rcases hfrac with h | h
          · exact h ▸ digitChar10_isDigit _
          · exact h ▸ digitChar10_isDigit _

/-- `pyDiv100Str` is nonempty. -/
theorem pyDiv100Str_ne_nil (a : Int) : (pyDiv100Str a).data ≠ [] := by
  unfold pyDiv100Str
  simp only [String.data_append]
  intro h
  rcases List.append_eq_nil.mp h with ⟨h1, h2⟩
  rcases List.append_eq_nil.mp h1 with ⟨h3, h4⟩
  rcases List.append_eq_nil.mp h3 with ⟨_, h5⟩
  exact natDecimal_ne_nil _ h5

/-! ## Helper lemmas: occurrence counting -/

/-- A nonempty pattern has no occurrence in the empty string. -/
theorem countOccL_nil (sub : List Char) (hs : sub ≠ []) :
    countOccL sub [] = 0 := by
  unfold countOccL
  rcases sub with _ | ⟨x, s⟩
  · exact absurd rfl hs
  · simp

/-- Unfolding occurrence counting over a cons cell. -/
theorem countOccL_cons (sub : List Char) (x : Char) (s : List Char) :
    countOccL sub (x :: s) =
      (if sub <+: x :: s then 1 else 0) + countOccL sub s := by
  unfold countOccL
  by_cases h : sub <+: x :: s <;> simp [h, List.tails, Nat.add_comm]

/-- A nonempty pattern whose characters all differ from `m` does not
start at `m`. -/
theorem not_prefix_cons_of_not_mem {sub : List Char} {m : Char}
    {rest : List Char} (hs : sub ≠ []) (hm : m ∉ sub) :
    ¬ sub <+: m :: rest := by
  rcases sub with _ | ⟨s0, sub'⟩
  · exact absurd rfl hs
  · intro h
    rcases List.cons_prefix_cons.mp h with ⟨rfl, _⟩
    exact hm (List.mem_cons_self _ _)

/-- No occurrence of a nonempty pattern starts inside a block of
characters that do not occur in the pattern. -/
theorem countOccL_append_left (sub : List Char) (hs : sub ≠ []) :
    ∀ (mid c : List Char), (∀ x ∈ mid, x ∉ sub) →
      countOccL sub (mid ++ c) = countOccL sub c := by
  intro mid
  induction mid with
  | nil => intro c _; simp
  | cons m mid' ih =>
    intro c hd
    rw [List.cons_append, countOccL_cons,
      if_neg (not_prefix_cons_of_not_mem hs (hd m (List.mem_cons_self _ _))),
      ih c (fun x hx => hd x (List.mem_cons_of_mem _ hx)), Nat.zero_add]

/-- A pattern is a prefix of `a ++ mid ++ c` iff it is a prefix of `a`,
provided `mid` is nonempty and shares no character with the pattern. -/
theorem prefix_append_mid_iff {sub a mid c : List Char} (hm : mid ≠ [])
    (hd : ∀ x ∈ mid, x ∉ sub) :
    sub <+: a ++ (mid ++ c) ↔ sub <+: a := by
  constructor
  · intro h
    by_cases hle : sub.length ≤ a.length
    · exact List.prefix_of_prefix_length_le h (List.prefix_append a (mid ++ c)) hle
    · exfalso
      have ha : a <+: sub :=
        List.prefix_of_prefix_length_le (List.prefix_append a (mid ++ c)) h
          (by omega)
      obtain ⟨s₂, rfl⟩ := ha
      have hs₂ : s₂ <+: mid ++ c := (List.prefix_append_right_inj a).mp h
      rcases mid with _ | ⟨m0, mid'⟩
      · exact hm rfl
      rcases s₂ with _ | ⟨t0, s₂'⟩
      · simp at hle
      · rcases List.cons_prefix_cons.mp (by simpa using hs₂) with ⟨rfl, _⟩
        exact hd t0 (List.mem_cons_self _ _) (by simp)
  · intro h
    exact h.trans (List.prefix_append a (mid ++ c))

/-- Occurrence counting splits across an inserted block that is
nonempty and character-disjoint from the pattern. -/
theorem countOccL_append_insert (sub mid c : List Char) (hs : sub ≠ [])
    (hm : mid ≠ []) (hd : ∀ x ∈ mid, x ∉ sub) :
    ∀ a : List Char,
      countOccL sub (a ++ (mid ++ c)) = countOccL sub a + countOccL sub c := by
  intro a
  induction a with
  | nil =>
    rw [List.nil_append, countOccL_append_left sub hs mid c hd,
      countOccL_nil sub hs, Nat.zero_add]
  | cons x a' ih =>
    rw [List.cons_append, countOccL_cons, ih, countOccL_cons]
    have hiff :
        sub <+: (x :: a') ++ (mid ++ c) ↔ sub <+: x :: a' :=
      prefix_append_mid_iff hm hd
    rw [List.cons_append] at hiff
    by_cases hp : sub <+: x :: a'
    · rw [if_pos (hiff.mpr hp), if_pos hp, Nat.add_assoc]
    · rw [if_neg (fun hh => hp (hiff.mp hh)), if_neg hp, Nat.add_assoc]

/-- Unpacking a `String.mk`. -/
theorem string_mk_data (l : List Char) : (String.mk l).data = l := rfl

/-- The boolean containment test agrees with list infixhood. -/
theorem strContainsSub_iff (s sub : String) :
    strContainsSub s sub = true ↔ sub.data <:+: s.data := by
  unfold strContainsSub
  rw [List.any_eq_true]
  constructor
  · rintro ⟨t, ht, hp⟩
    exact List.infix_iff_prefix_suffix.mpr
      ⟨t, List.isPrefixOf_iff_prefix.mp hp, (List.mem_tails _ _).mp ht⟩
  · intro h
    rcases List.infix_iff_prefix_suffix.mp h with ⟨t, hp, hsuf⟩
    exact ⟨t, (List.mem_tails _ _).mpr hsuf, List.isPrefixOf_iff_prefix.mpr hp⟩

/-- Substring containment is preserved by prepending. -/
theorem strContains_append_right (s t sub : String)
    (h : strContainsSub t sub = true) :
    strContainsSub (s ++ t) sub = true := by
  rw [strContainsSub_iff] at *
  refine h.trans ?_
  rw [String.data_append]
  exact (List.suffix_append _ _).isInfix

/-- The characters interpolated into the `rgba(...)` arguments never
contain a character of `"html \x7b"`. -/
theorem digit_not_in_htmlKey (x : Char) (hx : x.isDigit = true) :
    x ∉ ("html \x7b").data := by
  intro hmem
  have hk : ("html \x7b").data = ['h', 't', 'm', 'l', ' ', '\x7b'] := rfl
  rw [hk] at hmem
  simp only [List.mem_cons, List.not_mem_nil, or_false] at hmem
  rcases hmem with rfl | rfl | rfl | rfl | rfl | rfl <;>
    exact absurd hx (by decide)

set_option maxRecDepth 100000 in
/-- The `background_css` block contains exactly one `html` rule: the
pattern `"html \x7b"` occurs exactly once, whatever the color bytes and
alpha value. -/
theorem countSub_background_css (r g b : Nat) (alpha : Int) :
    countSub "html \x7b" (background_css r g b (pyDiv100Str alpha)) = 1 := by
  have hs : ("html \x7b").data ≠ [] := by decide
  have hdNat : ∀ n : Nat, ∀ x ∈ natDecimal n, x ∉ ("html \x7b").data :=
    fun n x hx => digit_not_in_htmlKey x (natDecimal_digits n x hx)
  have hdFrac : ∀ x ∈ (pyDiv100Str alpha).data, x ∉ ("html \x7b").data := by
    intro x hx
    rcases pyDiv100Str_chars alpha x hx with h | h | h
    · exact digit_not_in_htmlKey x h
    · subst h; decide
    · subst h; decide
  unfold countSub background_css natStr
  simp only [String.data_append, string_mk_data, List.append_assoc]
  rw [countOccL_append_insert _ _ _ hs (natDecimal_ne_nil r) (hdNat r),
    countOccL_append_insert _ _ _ hs (natDecimal_ne_nil g) (hdNat g),
    countOccL_append_insert _ _ _ hs (natDecimal_ne_nil b) (hdNat b),
    countOccL_append_insert _ _ _ hs (pyDiv100Str_ne_nil alpha) hdFrac]
  decide

/-- The rendered block decomposes as prefix ++ `html` rule ++ the fixed
selector rules. -/
theorem background_css_decomp (r g b : Nat) (frac : String) :
    background_css r g b frac =
      cssStylePrefix ++
        (cssHtmlRuleStart ++ natStr r ++ ", " ++ natStr g ++ ", " ++
          natStr b ++ ", " ++ frac ++ cssHtmlRuleEnd) ++
        cssAfterHtmlRule := by
  unfold background_css cssBeforeRGBA cssAfterRGBA
  simp [String.append_assoc]

/-! ## Helper lemmas: document model -/

/-- Appending style elements splits the id count. -/
theorem countOverlayId_append (l₁ l₂ : List StyleElem) :
    countOverlayId (l₁ ++ l₂) = countOverlayId l₁ + countOverlayId l₂ := by
  unfold countOverlayId
  rw [List.filter_append, List.length_append]

/-- Removing the first element with the overlay id empties the count
when it was at most one. -/
theorem countOverlayId_removeFirst (head : List StyleElem)
    (h : countOverlayId head ≤ 1) :
    countOverlayId (removeFirstById head) = 0 := by
  induction head with
  | nil => rfl
  | cons e rest ih =>
    unfold removeFirstById
    by_cases he : e.id = some overlayStyleId
    · rw [if_pos he]
      unfold countOverlayId at h ⊢
      rw [List.filter_cons, if_pos (by simp [he])] at h
      simpa using Nat.le_of_succ_le_succ h
    · rw [if_neg he]
      unfold countOverlayId at h ⊢
      rw [List.filter_cons, if_neg (by simp [he])] at h ⊢
      exact ih h

/-- One run of the theme-change effect leaves exactly one element with
the overlay id, given a valid starting document. -/
theorem countOverlayId_themeChange (r g b : Nat) (frac : String)
    (head : List StyleElem) (h : countOverlayId head ≤ 1) :
    countOverlayId (themeChangeEffect r g b frac head) = 1 := by
  unfold themeChangeEffect
  rw [countOverlayId_append, countOverlayId_removeFirst head h]
  rfl

/-! ## Helper lemmas: release-check script -/

/-- Any failed read of `.last-check` makes `was_recently_checked`
false. -/
theorem was_recently_checked_of_fail (r : FileRead Int) (now : Int)
    (h : isFailRead r = true) : was_recently_checked r now = false := by
  cases r <;> first | rfl | exact absurd h (by simp [isFailRead])

/-- Any failed read of the version mapping loads the empty mapping. -/
theorem load_version_mapping_of_fail (r : FileRead VersionMapping)
    (h : isFailRead r = true) : load_version_mapping r = [] := by
  cases r <;> first | rfl | exact absurd h (by simp [isFailRead])

/-! ## Claims -/

/-- Claim C1: a legacy-shaped config (both top-level keys `color` and
`alpha` present, values `C` and `A`) migrates to exactly
`{light_theme: {color: "#ffffff", alpha: A}, dark_theme: {color: C,
alpha: A}}` — the light color fixed to `"#ffffff"`, not derived from
`C` — and that new config is immediately persisted via the host's
`writeConfig`. -/
theorem migrate_legacy_shape (c : Dict) (C A : JValue)
    (hC : List.lookup "color" c = some C)
    (hA : List.lookup "alpha" c = some A) :
    migrate_config_if_needed (some c) =
      ⟨migratedConfig C A, some (migratedConfig C A), true⟩ := by
  simp only [migrate_config_if_needed, migratedConfig]
  rw [hC, hA]
  rfl

/-- Witness for C1 at the concrete legacy config
`{"color": "#123456", "alpha": 40}`. -/
theorem migrate_legacy_shape_witness :
    migrate_config_if_needed (some legacyCfgEx) =
      ⟨migratedConfig (JValue.str "#123456") (JValue.num 40),
       some (migratedConfig (JValue.str "#123456") (JValue.num 40)),
       true⟩ :=
  migrate_legacy_shape legacyCfgEx _ _ rfl rfl

/-- Counterexample to claim C3: the empty object is *not* migrated to
the default config (it passes through unchanged), contradicting the
claim for the "empty object" case. -/
theorem migrate_empty_object_not_default :
    ¬ (migrate_config_if_needed (some ([] : Dict)) =
        ⟨defaultConfig, none, false⟩) := by
  intro h
  have hc := congrArg MigrateResult.config h
  simp only [migrate_config_if_needed, defaultConfig] at hc
  exact absurd hc (by simp [List.lookup])

/-- Claim C3 as amended: only the *absent* raw config (`None`) is
replaced by the default OverlayConfig, with no persistence write and no
notice; an empty object is not legacy-shaped, so it passes through
unchanged (not defaulted), likewise with no write and no notice. -/
theorem migrate_absent_default_empty_passthrough :
    migrate_config_if_needed none = ⟨defaultConfig, none, false⟩ ∧
    migrate_config_if_needed (some ([] : Dict)) = ⟨[], none, false⟩ :=
  ⟨rfl, rfl⟩

/-- Claim C6: migration is idempotent — a present config lacking the
legacy key pair passes through unchanged with no write and no notice,
and re-migrating the result of any migration changes nothing. -/
theorem migrate_idempotent :
    (∀ c : Dict,
      ((List.lookup "color" c).isSome && (List.lookup "alpha" c).isSome)
          = false →
      migrate_config_if_needed (some c) = ⟨c, none, false⟩) ∧
    (∀ raw : Option Dict,
      migrate_config_if_needed (some (migrate_config_if_needed raw).config) =
        ⟨(migrate_config_if_needed raw).config, none, false⟩) := by
  have pass : ∀ c : Dict,
      ((List.lookup "color" c).isSome && (List.lookup "alpha" c).isSome)
          = false →
      migrate_config_if_needed (some c) = ⟨c, none, false⟩ := by
    intro c h
    simp only [migrate_config_if_needed]
    rw [h]
    simp
  refine ⟨pass, ?_⟩
  intro raw
  rcases raw with _ | c
  · exact pass defaultConfig rfl
  · by_cases h :
        ((List.lookup "color" c).isSome &&
          (List.lookup "alpha" c).isSome) = true
    · have hmig : migrate_config_if_needed (some c) =
          ⟨migratedConfig ((List.lookup "color" c).getD (.str "#000000"))
            ((List.lookup "alpha" c).getD (.num 30)),
           some (migratedConfig
            ((List.lookup "color" c).getD (.str "#000000"))
            ((List.lookup "alpha" c).getD (.num 30))), true⟩ := by
        simp only [migrate_config_if_needed, migratedConfig]
        rw [h]
        simp
      rw [hmig]
      exact pass _ rfl
    · rw [Bool.not_eq_true] at h
      rw [pass c h]
      exact pass c h

/-- Witness for C6: pass-through of a concrete new-shape config, and
re-migration of a concrete migrated legacy config. -/
theorem migrate_idempotent_witness :
    migrate_config_if_needed (some newShapeCfgEx) =
      ⟨newShapeCfgEx, none, false⟩ ∧
    migrate_config_if_needed
        (some (migrate_config_if_needed (some legacyCfgEx)).config) =
      ⟨(migrate_config_if_needed (some legacyCfgEx)).config, none, false⟩ :=
  ⟨migrate_idempotent.1 newShapeCfgEx rfl,
   migrate_idempotent.2 (some legacyCfgEx)⟩

/-- Claim C4: for every theme style, running the theme-change script
twice leaves exactly one style element with id
`transparent-overlay-theme-style` (it removes the existing one before
appending), while running the finished-screen script twice appends two
id-less style elements and removes nothing — two elements from an
empty document, and in general two more than before. -/
theorem theme_scripts_accumulation
    (r₁ g₁ b₁ r₂ g₂ b₂ : Nat) (f₁ f₂ : String) (head : List StyleElem)
    (h : countOverlayId head ≤ 1) :
    countOverlayId
        (themeChangeEffect r₂ g₂ b₂ f₂ (themeChangeEffect r₁ g₁ b₁ f₁ head))
      = 1 ∧
    (finishedScreenEffect r₂ g₂ b₂ f₂
        (finishedScreenEffect r₁ g₁ b₁ f₁ head)).length
      = head.length + 2 ∧
    finishedScreenEffect r₂ g₂ b₂ f₂ (finishedScreenEffect r₁ g₁ b₁ f₁ []) =
      [⟨none, styleInner r₁ g₁ b₁ f₁⟩, ⟨none, styleInner r₂ g₂ b₂ f₂⟩] := by
  refine ⟨?_, ?_, ?_⟩
  · exact countOverlayId_themeChange r₂ g₂ b₂ f₂ _
      (Nat.le_of_eq (countOverlayId_themeChange r₁ g₁ b₁ f₁ head h))
  · unfold finishedScreenEffect
    simp
  · rfl

/-- Witness for C4 at the documented theme styles and an empty
document. -/
theorem theme_scripts_accumulation_witness :
    countOverlayId
        (themeChangeEffect 255 255 255 "0.15"
          (themeChangeEffect 0 0 0 "0.3" [])) = 1 ∧
    (finishedScreenEffect 255 255 255 "0.15"
        (finishedScreenEffect 0 0 0 "0.3" [])).length = 0 + 2 ∧
    finishedScreenEffect 255 255 255 "0.15"
        (finishedScreenEffect 0 0 0 "0.3" []) =
      [⟨none, styleInner 0 0 0 "0.3"⟩,
       ⟨none, styleInner 255 255 255 "0.15"⟩] := by
  have h := theme_scripts_accumulation 0 0 0 255 255 255 "0.3" "0.15" []
    (by decide)
  exact ⟨h.1, by simpa using h.2.1, h.2.2⟩

set_option maxRecDepth 100000 in
/-- Claim C5: the RGBA conversion parses `color[1:3]`, `color[3:5]`,
`color[5:7]` as base-16 integers and passes `alpha/100` through with no
clamping (`alpha = 150` gives fraction `3/2`); `{color: "#1a2b3c",
alpha: 50}` gives `(26, 43, 60, 1/2)`; and the dark default
`{color: "#000000", alpha: 30}` yields a finished-screen script
containing `rgba(0, 0, 0, 0.3)`. -/
theorem toRGBA_spec :
    (∀ (color : String) (alpha : Int) (r g b : Nat),
      parseColorHex color = some (r, g, b) →
      toRGBA color alpha = some (r, g, b, (alpha : ℚ) / 100)) ∧
    toRGBA "#1a2b3c" 50 = some (26, 43, 60, 1/2) ∧
    toRGBA "#1a2b3c" 150 = some (26, 43, 60, 3/2) ∧
    inject_finished_screen_style darkCfgEx true =
      some (finishedScreenJs 0 0 0 "0.3") ∧
    strContainsSub (finishedScreenJs 0 0 0 "0.3") "rgba(0, 0, 0, 0.3)"
      = true := by
  refine ⟨?_, ?_, ?_, by decide, by decide⟩
  · intro color alpha r g b h
    unfold toRGBA
    rw [h]
    rfl
  · show toRGBA "#1a2b3c" 50 = some (26, 43, 60, 1/2)
    have h : toRGBA "#1a2b3c" 50 = some (26, 43, 60, (50 : ℚ) / 100) := rfl
    rw [h]
    norm_num
  · have h : toRGBA "#1a2b3c" 150 = some (26, 43, 60, (150 : ℚ) / 100) := rfl
    rw [h]
    norm_num

/-- Witness for C5: the parametric conversion applied at the concrete
color `"#1a2b3c"` with the out-of-range alpha 150. -/
theorem toRGBA_spec_witness :
    toRGBA "#1a2b3c" 150 = some (26, 43, 60, (150 : ℚ) / 100) :=
  toRGBA_spec.1 "#1a2b3c" 150 26 43 60 rfl

set_option maxRecDepth 100000 in
/-- Claim C2 as amended: for every theme style, `inject_overlay`
appends a style block containing exactly one `html` rule carrying the
`rgba` background, followed by the fixed selector list *as written in
the code*, whose congrat/overview attribute selectors are prefixed
with `div` — `.congrats-container, .congrats, div[id*="congrat"],
div[class*="congrat"]`, `.overview, div[class*="overview"]` — plus the
catch-all `div:not([style*="background"])`, regardless of the theme's
color and alpha values. -/
theorem inject_overlay_structure
    (config : Dict) (isDark : Bool) (head color : String) (alpha : Int)
    (r g b : Nat)
    (hca : resolveColorAlpha config isDark = some (color, alpha))
    (hcol : parseColorHex color = some (r, g, b)) :
    inject_overlay config isDark head =
      some (head ++ background_css r g b (pyDiv100Str alpha)) ∧
    countSub "html \x7b" (background_css r g b (pyDiv100Str alpha)) = 1 ∧
    background_css r g b (pyDiv100Str alpha) =
      cssStylePrefix ++
        (cssHtmlRuleStart ++ natStr r ++ ", " ++ natStr g ++ ", " ++
          natStr b ++ ", " ++ pyDiv100Str alpha ++ cssHtmlRuleEnd) ++
        cssAfterHtmlRule ∧
    strContainsSub (background_css r g b (pyDiv100Str alpha))
      ".congrats-container, .congrats, div[id*=\"congrat\"], div[class*=\"congrat\"]"
      = true ∧
    strContainsSub (background_css r g b (pyDiv100Str alpha))
      ".overview, div[class*=\"overview\"]" = true ∧
    strContainsSub (background_css r g b (pyDiv100Str alpha))
      "div:not([style*=\"background\"])" = true := by
  refine ⟨?_, countSub_background_css r g b alpha,
    background_css_decomp r g b _, ?_, ?_, ?_⟩
  · simp [inject_overlay, hca, hcol]
  · unfold background_css
    exact strContains_append_right _ _ _ (by decide)
  · unfold background_css
    exact strContains_append_right _ _ _ (by decide)
  · unfold background_css
    exact strContains_append_right _ _ _ (by decide)

set_option maxRecDepth 100000 in
/-- Witness for C2 at the documented dark theme. -/
theorem inject_overlay_structure_witness :
    inject_overlay darkCfgEx true "" =
      some ("" ++ background_css 0 0 0 (pyDiv100Str 30)) ∧
    countSub "html \x7b" (background_css 0 0 0 (pyDiv100Str 30)) = 1 := by
  have h := inject_overlay_structure darkCfgEx true "" "#000000" 30 0 0 0
    rfl rfl
  exact ⟨h.1, h.2.1⟩

set_option maxRecDepth 100000 in
/-- Counterexample to claim C2: at the documented dark theme the
injected block does not contain §4.3's selector lists verbatim — the
code prefixes the congrat and overview attribute selectors with
`div`. -/
theorem inject_overlay_spec_selectors_missing :
    inject_overlay darkCfgEx true "" =
      some ("" ++ background_css 0 0 0 "0.3") ∧
    strContainsSub (background_css 0 0 0 "0.3")
      ".congrats-container, .congrats, [id*=\"congrat\"], [class*=\"congrat\"]"
      = false ∧
    strContainsSub (background_css 0 0 0 "0.3")
      ".overview, [class*=\"overview\"]" = false := by
  exact ⟨by decide, by decide, by decide⟩

/-- Shared helper: once the recent-check skip is not taken, a fetch
exception or a `mark_checked` write failure makes the run exit 1 with
an error logged last. -/
theorem mainRun_exit_one_of_exc (w : World)
    (hskip : (!(pyLower (w.forceCheckEnv.getD "false") == "true") &&
        was_recently_checked w.lastCheck w.now) = false)
    (hfail : (∃ e, w.fetchLatest = Except.error e) ∨
             (∃ m, w.markCheckedExc = some m)) :
    (mainRun w).exitCode = 1 ∧ errorLogged (mainRun w) := by
  unfold mainRun
  dsimp only
  rw [hskip]
  rw [if_neg (by simp)]
  split
  · rename_i e heq
    refine ⟨rfl, excLog e, rfl, ?_⟩
    cases e with
    | reqExc m =>
      left
      show ("Error checking for updates: ").data <+:
        ("Error checking for updates: " ++ m).data
      rw [String.data_append]
      exact List.prefix_append _ _
    | otherExc m =>
      right
      show ("Unexpected error: ").data <+: ("Unexpected error: " ++ m).data
      rw [String.data_append]
      exact List.prefix_append _ _
  · rename_i latest heq
    rcases hfail with ⟨e, he⟩ | ⟨m, hm⟩
    · rw [he] at heq
      exact absurd heq (by simp)
    · rw [hm]
      dsimp only
      split <;>
      · refine ⟨rfl, "Unexpected error: " ++ m, rfl, Or.inr ?_⟩
        rw [String.data_append]
        exact List.prefix_append _ _

/-- Claim C7: if the recent-check skip is not taken and either the
GitHub request raises (network/API failure) or any other exception is
raised inside the `try` body (modelled by the fetch raising a generic
exception or the `mark_checked` write failing), the script logs the
error and exits with status 1. -/
theorem mainRun_failure_logs_and_exits (w : World)
    (hskip : (!(pyLower (w.forceCheckEnv.getD "false") == "true") &&
        was_recently_checked w.lastCheck w.now) = false)
    (hfail : (∃ e, w.fetchLatest = Except.error e) ∨
             (∃ m, w.markCheckedExc = some m)) :
    (mainRun w).exitCode = 1 ∧ errorLogged (mainRun w) :=
  mainRun_exit_one_of_exc w hskip hfail

/-- Witness for C7 at a run whose API request raises. -/
theorem mainRun_failure_logs_and_exits_witness :
    (mainRun netFailWorld).exitCode = 1 ∧ errorLogged (mainRun netFailWorld) :=
  mainRun_failure_logs_and_exits netFailWorld (by decide)
    (Or.inl ⟨PyExc.reqExc "connection refused", rfl⟩)

/-- Counterexample to claim C8: a run in which both state files read
fine (absent) and the API succeeds, but writing the `.last-check`
timestamp raises — the exception propagates to the generic handler and
the script exits 1, so write failures are *not* treated as absent. -/
theorem mark_checked_write_failure_exits :
    (mainRun markFailWorld).exitCode = 1 ∧
    (mainRun markFailWorld).logs.getLast? =
      some "Unexpected error: [Errno 28] No space left on device" := by
  exact ⟨by decide, by decide⟩

/-- Claim C8 as amended: failures while *reading* the version-mapping
file or the last-check timestamp file (I/O error, parse error) are
indistinguishable from the file being absent — the run is unchanged —
and the version-mapping file is never written by `main` at all; but an
I/O failure while *writing* the last-check file inside the check body
is an ordinary exception and exits the run with status 1. -/
theorem read_failures_treated_as_absent :
    (∀ (w : World) (rv rv' : FileRead VersionMapping)
        (rc rc' : FileRead Int),
      isFailRead rv = true → isFailRead rv' = true →
      isFailRead rc = true → isFailRead rc' = true →
      mainRun { w with versionMapping := rv, lastCheck := rc } =
        mainRun { w with versionMapping := rv', lastCheck := rc' }) ∧
    (∀ w : World, (mainRun w).mappingSaved = false) ∧
    (∀ (w : World) (m : String),
      (!(pyLower (w.forceCheckEnv.getD "false") == "true") &&
          was_recently_checked w.lastCheck w.now) = false →
      w.markCheckedExc = some m →
      (mainRun w).exitCode = 1) := by
  refine ⟨?_, ?_, ?_⟩
  · intro w rv rv' rc rc' h1 h2 h3 h4
    unfold mainRun
    dsimp only
    rw [was_recently_checked_of_fail _ _ h3,
      was_recently_checked_of_fail _ _ h4,
      load_version_mapping_of_fail _ h1, load_version_mapping_of_fail _ h2]
  · intro w
    unfold mainRun
    dsimp only
    split
    · rfl
    · split
      · rfl
      · split
        · split <;> rfl
        · split <;> rfl
  · intro w m hskip hm
    exact (mainRun_exit_one_of_exc w hskip (Or.inr ⟨m, hm⟩)).1

/-- Witness for C8: reading failures at a concrete run are equivalent
to absent files, no run writes the mapping, and a concrete write
failure exits 1. -/
theorem read_failures_treated_as_absent_witness :
    mainRun { buildWorld with
                versionMapping := FileRead.ioError,
                lastCheck := FileRead.ioError } =
      mainRun { buildWorld with
                  versionMapping := FileRead.badParse,
                  lastCheck := FileRead.absent } ∧
    (mainRun buildWorld).mappingSaved = false ∧
    (mainRun markFailWorld).exitCode = 1 :=
  ⟨read_failures_treated_as_absent.1 buildWorld _ _ _ _ rfl rfl rfl rfl,
   read_failures_treated_as_absent.2.1 buildWorld,
   read_failures_treated_as_absent.2.2 markFailWorld
     "[Errno 28] No space left on device" (by decide) rfl⟩

/-- Claim C9: whenever `main` returns normally (exit code 0), it has
written each of `new_release` and `needs_review` exactly once, and the
two are never both `"true"` in one run. -/
theorem mainRun_outputs_once_exclusive (w : World)
    (h : (mainRun w).exitCode = 0) :
    countKey (mainRun w).outputs "new_release" = 1 ∧
    countKey (mainRun w).outputs "needs_review" = 1 ∧
    ¬(List.lookup "new_release" (mainRun w).outputs = some "true" ∧
      List.lookup "needs_review" (mainRun w).outputs = some "true") := by
  revert h
  unfold mainRun
  dsimp only
  repeat' split
  all_goals
    first
      | (intro h; exact Nat.noConfusion h)
      | (intro _; refine ⟨rfl, rfl, ?_⟩; simp [List.lookup])

/-- Witness for C9 at a successful build-triggering run. -/
theorem mainRun_outputs_once_exclusive_witness :
    countKey (mainRun buildWorld).outputs "new_release" = 1 ∧
    countKey (mainRun buildWorld).outputs "needs_review" = 1 ∧
    ¬(List.lookup "new_release" (mainRun buildWorld).outputs = some "true" ∧
      List.lookup "needs_review" (mainRun buildWorld).outputs
        = some "true") :=
  mainRun_outputs_once_exclusive buildWorld (by decide)

/-- Claim C10: with `FORCE_CHECK` not `"true"` (case-insensitively) and
a last-check timestamp less than two hours old, `main` writes
`new_release=false` and `needs_review=false` and returns — exit code 0,
no API call, no `anki_version`/`changes_url` outputs, no last-check
update and no version-mapping write. -/
theorem mainRun_recent_skip (w : World) (t : Int)
    (hforce : pyLower (w.forceCheckEnv.getD "false") ≠ "true")
    (hlast : w.lastCheck = FileRead.ok t)
    (_h0 : 0 ≤ w.now - t) (h2 : w.now - t < 7200) :
    mainRun w =
      ⟨[("new_release", "false"), ("needs_review", "false")],
       ["Checking for Anki updates...",
        "Recently checked for updates, skipping"],
       0, false, false, false⟩ := by
  unfold mainRun
  dsimp only
  have hb : (pyLower (w.forceCheckEnv.getD "false") == "true") = false := by
    simp only [beq_eq_false_iff_ne, ne_eq]
    exact hforce
  rw [hb, hlast]
  simp [was_recently_checked, h2]

/-- Witness for C10 at a concrete recently-checked run. -/
theorem mainRun_recent_skip_witness :
    mainRun recentWorld =
      ⟨[("new_release", "false"), ("needs_review", "false")],
       ["Checking for Anki updates...",
        "Recently checked for updates, skipping"],
       0, false, false, false⟩ :=
  mainRun_recent_skip recentWorld 5000 (by decide) rfl (by decide) (by decide)
